import Mathlib

/-
Verification development for the rikibio payment pipeline.

The definitions below are a shallow embedding of the TypeScript source:
  * src/lib/constants.ts          — fixed deployment constants
  * sendTransaction (server action) — submit / confirm / verify pipeline
  * src/lib/solana.ts             — instruction builders, mint cache, assembler
  * src/actions/solana/createTransaction.ts — transaction build
  * src/lib/jup.ts                — aggregator instruction bundle ordering

Conventions:
  * public keys are modelled by their base58 strings (type `Key`); program
    derived addresses (computed in the source with findProgramAddressSync,
    i.e. sha256, which we do not re-implement) are modelled as fixed opaque
    string constants — only equality on them is ever used by the code;
  * BigNumber values are modelled as `Rat` (BigNumber arithmetic is exact
    decimal arithmetic for every operation the code performs; the one
    division performed — rawAmount / price — is rounded by BigNumber to 20
    decimal places, but the fractional part of rawAmount / 50000000 is
    either 0 or at least 2e-8, far above the rounding granularity, so the
    `isInteger` observation of the rounded quotient agrees with the exact
    rational one);
  * JavaScript exceptions are modelled as `Except String` with the thrown
    message; the catch-all in sendTransaction folds the error message back
    into a plain string;
  * the two potentially unbounded loops (the confirm-or-resubmit loop and
    the fetchTransaction retry recursion) are modelled with an explicit
    fuel parameter and an oracle giving the network response of each
    iteration; a `none` result means the loop is still running after
    `fuel` iterations.
-/

/-! ## Constants (src/lib/constants.ts) -/

abbrev Key := String

def USDC_MINT : Key := "EPjFWdd5AufqSSqeM2qN1xzybapC8G4wEGGkZwyTDt1v"

def RIKI_PUBKEY : Key := "7PVikdh8e1mTjdZT4ooEYAZGR9McPRkdRjf1tkxxdyRp"

/-- PDA of seed "riki" under the system program (findProgramAddressSync in the
source); modelled as a fixed key constant since the code only compares it. -/
def PAYMENT_REFERENCE : Key := "RikiPaymentReferencePda1111111111111111111"

/-- ATA of RIKI_PUBKEY for the USDC mint (findProgramAddressSync in the
source); modelled as a fixed key constant. -/
def USDC_TOKEN_ACCOUNT : Key := "RikiUsdcTokenAccount11111111111111111111111"

def TOKEN_PROGRAM_ID : Key := "TokenkegQfeZyiNwAJbNbGKPFXCWuBvf9Ss623VQ5DA"

def systemProgramId : Key := "11111111111111111111111111111111"

def COMPUTE_BUDGET_PROGRAM_ID : Key := "ComputeBudget111111111111111111111111111111"

def HOUR_PRICE : ℕ := 50

def TEN : ℚ := 10

def USDC_DECIMALS : ℕ := 6

def LAMPORTS_PER_SOL : ℕ := 1000000000

/-! ## Verifier (sendTransaction post-confirmation validation)

The code computes
  `price = BigNumber(HOUR_PRICE).times(TEN.pow(mintDecimals["USDC"])).integerValue(ROUND_FLOOR)`
and `quotient = BigNumber(rawAmount) / price`, then performs four checks in
textual order, throwing on the first violated one. -/

/-- The fixed unit price in settlement-token base units:
`BigNumber(HOUR_PRICE).times(TEN.pow 6).integerValue(ROUND_FLOOR)`. -/
def hourPriceBaseUnits : ℚ := ((⌊(HOUR_PRICE : ℚ) * TEN ^ USDC_DECIMALS⌋ : ℤ) : ℚ)

/-- The quotient `new BigNumber(amount, 16).dividedBy(price)` computed by the
verifier (the hex round-trip `rawAmount.toString(16)` is the identity on the
numeric value). -/
def quotientOf (rawAmount : ℕ) : ℚ := (rawAmount : ℚ) / hourPriceBaseUnits

/-- The two fields of the decoded destination token account (AccountLayout
decode of the seller ATA) that the verifier reads. -/
structure TokenAccount where
  owner : Key
  mint : Key
deriving DecidableEq, Repr

/-- The four verification checks of sendTransaction, in source order, each
throwing the source's message on violation:
```
if (!quotient.isInteger()) throw new Error("amount not transferred");
if (PAYMENT_REFERENCE.toString() !== paymentReference.toString()) throw new Error("wrong app reference");
if (seller !== RIKI_PUBKEY.toBase58()) throw new Error("wrong seller");
if (currency !== USDC_MINT) throw new Error("wrong seller");
```
(`quotient.isInteger()` is `(quotientOf rawAmount).den = 1`, see the header
comment on BigNumber division.) Note that the mint check reuses the message
"wrong seller". -/
def verifyTransfer (rawAmount : ℕ) (referenceKey : Key) (ata : TokenAccount) :
    Except String Unit :=
  if (quotientOf rawAmount).den ≠ 1 then .error "amount not transferred"
  else if PAYMENT_REFERENCE ≠ referenceKey then .error "wrong app reference"
  else if ata.owner ≠ RIKI_PUBKEY then .error "wrong seller"
  else if ata.mint ≠ USDC_MINT then .error "wrong seller"
  else .ok ()

/-- A destination token account satisfying the seller and currency checks. -/
def validSellerATA : TokenAccount := ⟨RIKI_PUBKEY, USDC_MINT⟩

/-! ## Submitter: confirm-or-resubmit loop (sendTransaction lines 26-64)

The code broadcasts `deserializedTransaction.serialize()` once, obtaining the
signature, then loops: race the confirmation promise against a 2-second
timeout; on timeout it rebroadcasts the identical serialized bytes
(`serialize()` is deterministic) and loops again.  The per-iteration network
behaviour is an oracle: timed out, confirmed, or the confirmation promise
rejected with a message. -/

abbrev Bytes := List ℕ

inductive ConfirmEvent
  | timeout
  | confirmed
  | failed (msg : String)

/-- One confirmation-loop run: returns the list of rebroadcast byte strings
(one entry per timed-out iteration, in order) on confirmation, the thrown
message if the confirmation promise rejects, and `none` if still looping
after `fuel` iterations. -/
def confirmLoop (bytes : Bytes) (oracle : ℕ → ConfirmEvent) : ℕ → ℕ → Option (Except String (List Bytes))
  | _, 0 => none
  | i, fuel + 1 =>
    match oracle i with
    | .confirmed => some (.ok [])
    | .failed m => some (.error m)
    | .timeout => (confirmLoop bytes oracle (i + 1) fuel).map (fun r => r.map (bytes :: ·))

/-- Number of timed-out iterations before the loop ends (specification-side
count used to state that every rebroadcast carries the identical bytes). -/
def confirmSchedule (oracle : ℕ → ConfirmEvent) : ℕ → ℕ → Option (Except String ℕ)
  | _, 0 => none
  | i, fuel + 1 =>
    match oracle i with
    | .confirmed => some (.ok 0)
    | .failed m => some (.error m)
    | .timeout => (confirmSchedule oracle (i + 1) fuel).map (fun r => r.map (· + 1))

/-! ## Verifier transaction fetch (fetchTransaction, sendTransaction file)

```
async function fetchTransaction(signature) {
  const retryDelay = 400;
  const response = await config.SOL_RPC.getTransaction(signature, ...);
  if (response) return response;
  await new Promise((resolve) => setTimeout(resolve, retryDelay));
  return fetchTransaction(signature);
}
```
The recursion has no attempt counter and no error path: it returns the first
non-null response and otherwise recurses forever.  `oracle n` is the response
of the n-th getTransaction call. -/

deriving instance DecidableEq for Except

/-- A compiled instruction as the verifier consumes it: the result of
`transferCheckedInstructionData.decode` on its data (the raw amount, or the
decoder's thrown message) and its resolved static account keys. -/
structure CompiledIx where
  decodeAmount : Except String ℕ
  keys : List Key
deriving DecidableEq, Repr

/-- The fetched finalized transaction: its compiled instruction list. -/
structure FetchedTx where
  instrs : List CompiledIx
deriving DecidableEq, Repr

/-- Fuel-indexed model of the fetchTransaction recursion: `none` means the
recursion is still running after `fuel` attempts. -/
def fetchTransactionFuel (oracle : ℕ → Option FetchedTx) : ℕ → ℕ → Option FetchedTx
  | _, 0 => none
  | i, fuel + 1 =>
    match oracle i with
    | some r => some r
    | none => fetchTransactionFuel oracle (i + 1) fuel

/-! ## The sendTransaction pipeline -/

/-- The persisted payment record
(`db.collection("cryptoPayment").doc(signature).set({...})`).  The source
stores `amount` as the hex string `rawAmount.toString(16)` and adds an ISO
timestamp; the amount is modelled by its numeric value and the wall-clock
timestamp is omitted. -/
structure PaymentRecord where
  signature : String
  signer : Key
  currency : Key
  amount : ℕ
deriving DecidableEq, Repr

/-- Everything a successful sendTransaction run produces: the returned
signature, the bytes of every rebroadcast, the record written to the ledger,
and the data passed to generateMeet (the fulfillment callback). -/
structure SuccessOutcome where
  signature : String
  rebroadcasts : List Bytes
  record : PaymentRecord
  meetData : String
deriving DecidableEq, Repr

/-- The network/run trace sendTransaction interacts with:
deserialization result of the input base64, the signature returned by the
initial sendRawTransaction (or its thrown message), the per-iteration
confirmation events, the per-attempt getTransaction responses, and the
getAccountInfo response for the destination token account (decoded). -/
structure Env where
  deserialized : Except String Bytes
  sendSig : Except String String
  confirmOracle : ℕ → ConfirmEvent
  fetchOracle : ℕ → Option FetchedTx
  sellerATA : Key → Option TokenAccount

/-- The try-block of sendTransaction, step by step in source order:
deserialize, broadcast, confirm loop, fetch the finalized transaction, pop
the last compiled instruction, decode its transfer payload, destructure the
five account keys (fewer than five keys would make `owner`/`paymentReference`
undefined and the subsequent dereference throw a TypeError), fetch and decode
the destination token account, run the four verification checks, persist the
record and invoke generateMeet.  `none` means one of the two loops is still
running after `fuel` iterations. -/
def sendTransactionTryFuel (env : Env) (data : String) (fuel : ℕ) :
    Option (Except String SuccessOutcome) :=
  match env.deserialized with
  | .error m => some (.error m)
  | .ok bytes =>
    match env.sendSig with
    | .error m => some (.error m)
    | .ok signature =>
      match confirmLoop bytes env.confirmOracle 0 fuel with
      | none => none
      | some (.error m) => some (.error m)
      | some (.ok rebroadcastLog) =>
        match fetchTransactionFuel env.fetchOracle 0 fuel with
        | none => none
        | some fetched =>
          match fetched.instrs.getLast? with
          | none => some (.error "missing transfer instruction")
          | some payIx =>
            match payIx.decodeAmount with
            | .error m => some (.error m)
            | .ok rawAmount =>
              if payIx.keys.length < 5 then
                some (.error "Cannot read properties of undefined")
              else
                match env.sellerATA (payIx.keys.getD 2 "") with
                | none => some (.error "error fetching ata info")
                | some ata =>
                  match verifyTransfer rawAmount (payIx.keys.getD 4 "") ata with
                  | .error m => some (.error m)
                  | .ok _ =>
                    some (.ok { signature := signature
                              , rebroadcasts := rebroadcastLog
                              , record := { signature := signature
                                          , signer := payIx.keys.getD 3 ""
                                          , currency := ata.mint
                                          , amount := rawAmount }
                              , meetData := data })

/-- The whole of sendTransaction: the catch-all turns any thrown error into
its message, returned as a plain string — the same type as the success
signature (`return error.message`). -/
def sendTransactionFuel (env : Env) (data : String) (fuel : ℕ) : Option String :=
  match sendTransactionTryFuel env data fuel with
  | none => none
  | some (.ok o) => some o.signature
  | some (.error m) => some m

/-! ## Instruction builders and transaction assembly
(src/lib/solana.ts, src/lib/jup.ts, src/actions/solana/createTransaction.ts) -/

/-- Instruction payloads the model distinguishes; aggregator instructions
carry their opaque base64-decoded bytes. -/
inductive IxData
  | computeUnitLimit (units : ℕ)
  | computeUnitPrice (microLamports : ℕ)
  | transferChecked (amount : ℤ) (decimals : ℕ)
  | systemTransfer (lamports : ℤ)
  | rawData (bytes : List ℕ)
deriving DecidableEq, Repr

structure Instr where
  programId : Key
  keys : List Key
  data : IxData
deriving DecidableEq, Repr

def computeUnitLimitIx (units : ℕ) : Instr :=
  ⟨COMPUTE_BUDGET_PROGRAM_ID, [], .computeUnitLimit units⟩

def computeUnitPriceIx (microLamports : ℕ) : Instr :=
  ⟨COMPUTE_BUDGET_PROGRAM_ID, [], .computeUnitPrice microLamports⟩

/-- USDC_AMOUNT = `new BigNumber(HOUR_PRICE)`. -/
def USDC_AMOUNT : ℚ := (HOUR_PRICE : ℚ)

/-- The raw base-unit amount computed by createTransaction:
`USDC_AMOUNT.multipliedBy(quantity).times(TEN.pow(USDC_DECIMALS)).integerValue(ROUND_FLOOR)`
(BigNumber multiplication is exact; only the final floor can round). -/
def usdcAmountRaw (quantity : ℚ) : ℤ :=
  ⌊USDC_AMOUNT * quantity * TEN ^ USDC_DECIMALS⌋

/-- createPayInstruction (src/lib/solana.ts): a transfer-checked instruction
whose account keys are source ATA, mint, destination ATA, owner — the order
fixed by the SPL transfer-checked layout — with the fixed payment-reference
key appended as a fifth, non-signer, non-writable key. -/
def createPayInstruction (amount : ℤ) (sender senderATA : Key) : Instr :=
  { programId := TOKEN_PROGRAM_ID
  , keys := [senderATA, USDC_MINT, USDC_TOKEN_ACCOUNT, sender, PAYMENT_REFERENCE]
  , data := .transferChecked amount USDC_DECIMALS }

/-- getInstructions (src/lib/solana.ts): after simulating with provisional
compute-budget instructions, the final pass unshifts the tightened
compute-unit-limit and compute-unit-price instructions onto the original
draft list and returns it — the draft order (and last element) is preserved.
`units` is the simulated consumption (or the 1400000 fallback) and
`microLamports` the priority-fee estimate (or the 5000 fallback). -/
def getInstructions (units microLamports : ℕ) (initialInstructions : List Instr) : List Instr :=
  computeUnitLimitIx units :: computeUnitPriceIx microLamports :: initialInstructions

/-- getJupInstructions (src/lib/jup.ts): the deserialized aggregator bundle in
exactly the order the code pushes it — setup instructions, the swap
instruction, the optional cleanup instruction, then other instructions. -/
def jupBundle (setup : List Instr) (swap : Instr) (cleanup : Option Instr)
    (other : List Instr) : List Instr :=
  setup ++ [swap] ++ cleanup.toList ++ other

/-- Fields of the sender's USDC associated token account that
createTransaction reads (getAccount). -/
structure SenderTokenAccount where
  isInitialized : Bool
  isFrozen : Bool
  amount : ℤ
deriving DecidableEq, Repr

/-- createTransaction (src/actions/solana/createTransaction.ts): local checks
on the sender ATA; for a non-USDC currency the aggregator bundle is pushed
first, for USDC a local balance check runs instead; the settlement transfer
instruction is pushed last; getTransaction then prepends the compute-budget
instructions and compiles (compileToV0Message preserves instruction order, so
the compiled message's instruction list is the returned list).  The catch
block swallows every error and returns undefined, modelled as `none`. -/
def createTransaction (senderAccount : SenderTokenAccount) (quantity : ℚ)
    (currency : Key) (jupIxs : List Instr) (units microLamports : ℕ)
    (sender senderATA : Key) : Option (List Instr) :=
  if senderAccount.isInitialized = false then none
  else if senderAccount.isFrozen then none
  else if currency ≠ USDC_MINT then
    some (getInstructions units microLamports
      (jupIxs ++ [createPayInstruction (usdcAmountRaw quantity) sender senderATA]))
  else if usdcAmountRaw quantity > senderAccount.amount then none
  else
    some (getInstructions units microLamports
      [createPayInstruction (usdcAmountRaw quantity) sender senderATA])

/-! ## Native transfer builder (createSystemInstruction, src/lib/solana.ts) -/

/-- The sender AccountInfo fields createSystemInstruction reads. -/
structure AccountInfoNative where
  owner : Key
  executable : Bool
  lamports : ℕ
deriving DecidableEq, Repr

/-- createSystemInstruction: four local checks in source order, then the
system transfer instruction.  `amount.decimalPlaces() > 9` is equivalent, for
the decimal values a BigNumber holds, to `amount * 10^9` not being an
integer; `integerValue(ROUND_FLOOR)` after multiplying by LAMPORTS_PER_SOL is
the floor. -/
def createSystemInstruction (recipient : Key) (amount : ℚ) (sender : Key)
    (senderInfo : AccountInfoNative) : Except String Instr :=
  if senderInfo.owner ≠ systemProgramId then .error "sender owner invalid"
  else if senderInfo.executable then .error "sender executable"
  else if (amount * (10 : ℚ) ^ 9).den ≠ 1 then .error "amount decimals invalid"
  else if ⌊amount * (LAMPORTS_PER_SOL : ℚ)⌋ > (senderInfo.lamports : ℤ) then
    .error "insufficient funds"
  else
    .ok ⟨systemProgramId, [sender, recipient],
         .systemTransfer ⌊amount * (LAMPORTS_PER_SOL : ℚ)⌋⟩

/-! ## Mint cache (getMintData, src/lib/solana.ts) -/

/-- The raw mint account as MintLayout.decode returns it: `isInitialized` is
decoded by a `u8` field, i.e. it is a byte, not a boolean. -/
structure RawMint where
  mintAuthorityOption : ℕ
  mintAuthority : Key
  supply : ℕ
  decimals : ℕ
  isInitialized : ℕ
  freezeAuthorityOption : ℕ
  freezeAuthority : Key
deriving DecidableEq, Repr

/-- The Firestore document getMintData writes: keys as base58 strings, supply
via toString (the numeric value round-trips exactly), isInitialized stored as
`decodedMintData.isInitialized ? 1 : 0`. -/
structure CachedMintDoc where
  mint : Key
  mintAuthorityOption : ℕ
  mintAuthority : Key
  supply : ℕ
  decimals : ℕ
  isInitialized : ℕ
  freezeAuthorityOption : ℕ
  freezeAuthority : Key
deriving DecidableEq, Repr

/-- The value getMintData hands back to its caller.  JavaScript booleans are
encoded as 0/1: the cache-hit branch returns `!!mintData.isInitialized` (a
boolean, encoded 1 or 0), the miss branch returns the raw decoded byte. -/
structure MintView where
  mintAuthorityOption : ℕ
  mintAuthority : Key
  supply : ℕ
  decimals : ℕ
  isInitialized : ℕ
  freezeAuthorityOption : ℕ
  freezeAuthority : Key
deriving DecidableEq, Repr

def cacheView (d : CachedMintDoc) : MintView :=
  ⟨d.mintAuthorityOption, d.mintAuthority, d.supply, d.decimals,
   if d.isInitialized ≠ 0 then 1 else 0, d.freezeAuthorityOption, d.freezeAuthority⟩

def rawView (r : RawMint) : MintView :=
  ⟨r.mintAuthorityOption, r.mintAuthority, r.supply, r.decimals,
   r.isInitialized, r.freezeAuthorityOption, r.freezeAuthority⟩

def storeDoc (mint : Key) (r : RawMint) : CachedMintDoc :=
  ⟨mint, r.mintAuthorityOption, r.mintAuthority, r.supply, r.decimals,
   if r.isInitialized ≠ 0 then 1 else 0, r.freezeAuthorityOption, r.freezeAuthority⟩

/-- The persistent mint cache (the `mint` Firestore collection), keyed by the
base58 mint address. -/
abbrev MintCache := List (Key × CachedMintDoc)

/-- getMintData: check the persistent cache; on a hit return the
reconstructed fields with zero chain calls; on a miss issue one
getAccountInfo call, decode, write back, and return the decoded data.  The
result is (returned value or thrown message, cache afterwards, number of
chain RPC calls made). -/
def getMintData (chain : Key → Option RawMint) (cache : MintCache) (mintKey : Key) :
    Except String MintView × MintCache × ℕ :=
  match cache.lookup mintKey with
  | some doc => (.ok (cacheView doc), cache, 0)
  | none =>
    match chain mintKey with
    | none => (.error "Failed to get program accounts", cache, 1)
    | some raw => (.ok (rawView raw), (mintKey, storeDoc mintKey raw) :: cache, 1)

/-! ## Check-order functions stated from the claim wording (for C2) -/

/-- Modelled from the claim wording of C2: the four checks in the order
reference tag, destination owner, destination mint, amount multiple, raising
the error of the earliest violated check (to be compared with the source's
`verifyTransfer`). -/
def claimCheckOrder (rawAmount : ℕ) (referenceKey : Key) (ata : TokenAccount) :
    Except String Unit :=
  if PAYMENT_REFERENCE ≠ referenceKey then .error "wrong app reference"
  else if ata.owner ≠ RIKI_PUBKEY then .error "wrong seller"
  else if ata.mint ≠ USDC_MINT then .error "wrong currency"
  else if (quotientOf rawAmount).den ≠ 1 then .error "amount not transferred"
  else .ok ()

/-- The four checks in the source's order as a list of
(violated?, error message) pairs: amount multiple, reference tag, destination
owner, destination mint.  Stated from the amended claim wording, for
comparison with `verifyTransfer`. -/
def orderedChecks (rawAmount : ℕ) (referenceKey : Key) (ata : TokenAccount) :
    List (Bool × String) :=
  [ (decide ((quotientOf rawAmount).den ≠ 1), "amount not transferred")
  , (decide (PAYMENT_REFERENCE ≠ referenceKey), "wrong app reference")
  , (decide (ata.owner ≠ RIKI_PUBKEY), "wrong seller")
  , (decide (ata.mint ≠ USDC_MINT), "wrong seller") ]

/-- The message of the earliest violated check in the source's order, if any. -/
def firstViolationMsg (rawAmount : ℕ) (referenceKey : Key) (ata : TokenAccount) :
    Option String :=
  ((orderedChecks rawAmount referenceKey ata).find? (fun c => c.1)).map (fun c => c.2)

/-! ## Concrete run traces used by the claim theorems -/

/-- A finalized transaction whose single instruction transfers 100000000 base
units (2 billing units) with the correct reference key. -/
def ftxA : FetchedTx :=
  ⟨[⟨.ok 100000000, ["SRC", "MINTKEY", "DEST", "OWNER", PAYMENT_REFERENCE]⟩]⟩

/-- A run in which everything succeeds on the first try: amount 100000000,
valid reference, valid destination. -/
def envA : Env :=
  { deserialized := .ok [7, 7]
  , sendSig := .ok "SIG0"
  , confirmOracle := fun _ => .confirmed
  , fetchOracle := fun _ => some ftxA
  , sellerATA := fun k => if k = "DEST" then some validSellerATA else none }

/-- A finalized transaction whose transfer moves 0 base units, with all other
fields valid. -/
def ftxZ : FetchedTx :=
  ⟨[⟨.ok 0, ["SRC", "MINTKEY", "DEST", "OWNER", PAYMENT_REFERENCE]⟩]⟩

/-- A run identical to `envA` except that the transferred amount is 0. -/
def envZ : Env :=
  { deserialized := .ok [7, 7]
  , sendSig := .ok "SIG0"
  , confirmOracle := fun _ => .confirmed
  , fetchOracle := fun _ => some ftxZ
  , sellerATA := fun k => if k = "DEST" then some validSellerATA else none }

/-- A confirmation source that reports unconfirmed (timeout) twice, then
confirmed. -/
def mockConfirmOracle : ℕ → ConfirmEvent := fun i => if i < 2 then .timeout else .confirmed

/-- A run whose confirmation source is `mockConfirmOracle` and is otherwise
the same as `envA`. -/
def envC7 : Env :=
  { deserialized := .ok [7, 7]
  , sendSig := .ok "SIG0"
  , confirmOracle := mockConfirmOracle
  , fetchOracle := fun _ => some ftxA
  , sellerATA := fun k => if k = "DEST" then some validSellerATA else none }

/-- A run whose input bytes fail to deserialize. -/
def envBad : Env :=
  { deserialized := .error "bad bytes"
  , sendSig := .ok "SIG0"
  , confirmOracle := fun _ => .confirmed
  , fetchOracle := fun _ => none
  , sellerATA := fun _ => none }

/-- A concrete initialized mint account (isInitialized byte 1, as the token
program writes it). -/
def rawM : RawMint := ⟨1, "AUTH1111", 1000000, 6, 1, 0, "FAUTH111"⟩

/-- A chain holding exactly the mint account `rawM` at address M1. -/
def chainW : Key → Option RawMint := fun k => if k = "M1" then some rawM else none

/-- A concrete aggregator swap instruction. -/
def swapW : Instr := ⟨"JUP6LkbZbjS1jKKwapdHNy74zcZ3tLUZoi5QNyVTaV4", ["A", "B"], .rawData [9, 9]⟩

/-- A concrete funded, initialized, unfrozen sender token account. -/
def acctW : SenderTokenAccount := ⟨true, false, 1000000000⟩

/-! ## Helper lemmas -/

lemma hourPriceBaseUnits_eq : hourPriceBaseUnits = 50000000 := by
  have h : (HOUR_PRICE : ℚ) * TEN ^ USDC_DECIMALS = ((50000000 : ℤ) : ℚ) := by
    norm_num [TEN, HOUR_PRICE, USDC_DECIMALS]
  rw [hourPriceBaseUnits, h, Int.floor_intCast]
  norm_num

lemma quotientOf_den_one_iff (A : ℕ) : (quotientOf A).den = 1 ↔ 50000000 ∣ A := by
  rw [quotientOf, hourPriceBaseUnits_eq]
  have h50 : ((50000000 : ℚ)) = ((50000000 : ℕ) : ℚ) := by norm_num
  rw [h50]
  exact Rat.den_div_natCast_eq_one_iff A 50000000 (by norm_num)

lemma quotientOf_mul (N : ℕ) : quotientOf (N * 50000000) = (N : ℚ) := by
  rw [quotientOf, hourPriceBaseUnits_eq]
  push_cast
  field_simp

lemma den_100000000 : (quotientOf 100000000).den = 1 :=
  (quotientOf_den_one_iff 100000000).mpr ⟨2, by norm_num⟩

lemma den_zero : (quotientOf 0).den = 1 :=
  (quotientOf_den_one_iff 0).mpr ⟨0, by norm_num⟩

lemma den_50000001 : (quotientOf 50000001).den ≠ 1 := by
  rw [Ne, quotientOf_den_one_iff]
  omega

lemma verifyTransfer_valid_ok (A : ℕ) (h : (quotientOf A).den = 1) :
    verifyTransfer A PAYMENT_REFERENCE validSellerATA = .ok () := by
  simp [verifyTransfer, h, validSellerATA]

lemma validSellerATA_mint : validSellerATA.mint = USDC_MINT := rfl

lemma getLast?_cons_cons_append (a b : Instr) (l : List Instr) (x : Instr) :
    (a :: b :: (l ++ [x])).getLast? = some x := by
  have h : a :: b :: (l ++ [x]) = (a :: b :: l) ++ [x] := by simp
  rw [h, List.getLast?_concat]

/-! ## Claim theorems -/

/-- Claim C1, counterexample.  A run whose last instruction transfers
A = 2 * 50000000 base units passes every check (the billing-unit quotient is
exactly 2), but sendTransaction returns the transaction signature "SIG0" —
not the verified billing-unit quantity 2: the quotient is computed only for
the integrality test and then discarded, and fulfillment is fed the client's
original request data. -/
theorem C1_counterexample :
    sendTransactionFuel envA "d" 2 = some "SIG0"
    ∧ verifyTransfer 100000000 PAYMENT_REFERENCE validSellerATA = .ok ()
    ∧ quotientOf 100000000 = 2
    ∧ ("SIG0" : String) ≠ "2" := by
  refine ⟨?_, verifyTransfer_valid_ok 100000000 den_100000000, ?_, by decide⟩
  · simp [sendTransactionFuel, sendTransactionTryFuel, envA, ftxA, confirmLoop,
          fetchTransactionFuel, validSellerATA_mint,
          verifyTransfer_valid_ok 100000000 den_100000000]
  · have h := quotientOf_mul 2
    norm_num at h
    exact h

/-- Claim C1, amended.  The divisibility check passes exactly when the raw
amount A is an exact integer multiple of 50000000 = 50 * 10^6; for
A = N * 50000000 the computed quotient equals N exactly and the verifier
accepts; A = 50000000 + 1 is rejected with the amount error
("amount not transferred"); but on success sendTransaction returns the
transaction signature, not the billing-unit quantity. -/
theorem C1_amended_theorem (A N : ℕ) :
    ((quotientOf A).den = 1 ↔ 50000000 ∣ A)
    ∧ quotientOf (N * 50000000) = (N : ℚ)
    ∧ verifyTransfer (N * 50000000) PAYMENT_REFERENCE validSellerATA = .ok ()
    ∧ verifyTransfer 50000001 PAYMENT_REFERENCE validSellerATA = .error "amount not transferred"
    ∧ sendTransactionFuel envA "d" 2 = some "SIG0" := by
  refine ⟨quotientOf_den_one_iff A, quotientOf_mul N, ?_, ?_, ?_⟩
  · exact verifyTransfer_valid_ok _ ((quotientOf_den_one_iff _).mpr ⟨N, Nat.mul_comm N 50000000⟩)
  · simp [verifyTransfer, den_50000001]
  · simp [sendTransactionFuel, sendTransactionTryFuel, envA, ftxA, confirmLoop,
          fetchTransactionFuel, validSellerATA_mint,
          verifyTransfer_valid_ok 100000000 den_100000000]

/-- Claim C2, counterexample.  A decoded transfer violating both the
reference-tag check and the divisibility check (amount 50000001, reference
key "BadReference") is rejected with the amount error, not the reference
error: the source checks divisibility first, so the claimed order
(reference, owner, mint, amount) does not hold. -/
theorem C2_counterexample :
    verifyTransfer 50000001 "BadReference" validSellerATA = .error "amount not transferred"
    ∧ claimCheckOrder 50000001 "BadReference" validSellerATA = .error "wrong app reference"
    ∧ ("amount not transferred" : String) ≠ "wrong app reference" := by
  refine ⟨?_, ?_, by decide⟩
  · simp [verifyTransfer, den_50000001]
  · simp [claimCheckOrder]
    decide

/-- Claim C2, amended.  The verifier performs its four checks in the order
amount-is-exact-multiple ("amount not transferred"), reference tag
("wrong app reference"), destination owner ("wrong seller"), destination
mint (also "wrong seller" — the currency check reuses the seller message),
failing with the error of the earliest violated check in this order. -/
theorem C2_amended_theorem (rawAmount : ℕ) (referenceKey : Key) (ata : TokenAccount) :
    verifyTransfer rawAmount referenceKey ata =
      match firstViolationMsg rawAmount referenceKey ata with
      | some m => Except.error m
      | none => Except.ok () := by
  by_cases h1 : (quotientOf rawAmount).den ≠ 1
  · simp [verifyTransfer, firstViolationMsg, orderedChecks, h1]
  · by_cases h2 : PAYMENT_REFERENCE ≠ referenceKey
    · simp [verifyTransfer, firstViolationMsg, orderedChecks, h1, h2]
    · by_cases h3 : ata.owner ≠ RIKI_PUBKEY
      · simp [verifyTransfer, firstViolationMsg, orderedChecks, h1, h2, h3]
      · by_cases h4 : ata.mint ≠ USDC_MINT
        · simp [verifyTransfer, firstViolationMsg, orderedChecks, h1, h2, h3, h4]
        · simp [verifyTransfer, firstViolationMsg, orderedChecks, h1, h2, h3, h4]

/-- Claim C3.  For every build createTransaction produces — any payment
currency, any aggregator bundle (setup*, swap, cleanup?, other*), and after
getInstructions prepends the compute-budget instructions — the settlement
transfer instruction is the last instruction of the compiled message. -/
theorem C3_theorem (acct : SenderTokenAccount) (quantity : ℚ) (currency : Key)
    (setup : List Instr) (swap : Instr) (cleanup : Option Instr) (other : List Instr)
    (units microLamports : ℕ) (sender senderATA : Key) (built : List Instr)
    (h : createTransaction acct quantity currency (jupBundle setup swap cleanup other)
          units microLamports sender senderATA = some built) :
    built.getLast? = some (createPayInstruction (usdcAmountRaw quantity) sender senderATA) := by
  unfold createTransaction at h
  split_ifs at h with h1 h2 h3 h4
  · cases h
    exact getLast?_cons_cons_append _ _ _ _
  · cases h
    simp [getInstructions]

/-- Claim C3, witness: a concrete non-settlement-currency build through the
aggregator bundle ends in the settlement transfer instruction. -/
theorem C3_witness :
    [computeUnitLimitIx 400000, computeUnitPriceIx 5000, swapW,
       createPayInstruction 50000000 "S" "SA"].getLast? =
      some (createPayInstruction (usdcAmountRaw 1) "S" "SA") := by
  have hb : createTransaction acctW 1 "SomeOtherMint" (jupBundle [] swapW none [])
      400000 5000 "S" "SA" =
      some [computeUnitLimitIx 400000, computeUnitPriceIx 5000, swapW,
            createPayInstruction 50000000 "S" "SA"] := by
    have hamt : usdcAmountRaw 1 = 50000000 := by
      rw [usdcAmountRaw, USDC_AMOUNT]
      have h : (HOUR_PRICE : ℚ) * 1 * TEN ^ USDC_DECIMALS = ((50000000 : ℤ) : ℚ) := by
        norm_num [TEN, HOUR_PRICE, USDC_DECIMALS]
      rw [h, Int.floor_intCast]
    simp [createTransaction, acctW, jupBundle, getInstructions, hamt, USDC_MINT]
  exact C3_theorem acctW 1 "SomeOtherMint" [] swapW none [] 400000 5000 "S" "SA" _ hb

/-- Claim C4.  For every quantity N (a whole number of billing units), the
raw base-unit amount createTransaction composes into the settlement transfer
equals HOUR_PRICE * N * 10^USDC_DECIMALS exactly — the floor never rounds —
and in particular quantity 2 yields exactly 100000000. -/
theorem C4_theorem (N : ℕ) (sender senderATA : Key) :
    usdcAmountRaw (N : ℚ) = (50 : ℤ) * N * 10 ^ 6
    ∧ (createPayInstruction (usdcAmountRaw (N : ℚ)) sender senderATA).data =
        .transferChecked ((50 : ℤ) * N * 10 ^ 6) 6
    ∧ usdcAmountRaw (2 : ℚ) = 100000000 := by
  have key : ∀ M : ℕ, usdcAmountRaw (M : ℚ) = (50 : ℤ) * M * 10 ^ 6 := by
    intro M
    rw [usdcAmountRaw, USDC_AMOUNT]
    have h : (HOUR_PRICE : ℚ) * (M : ℚ) * TEN ^ USDC_DECIMALS =
        (((50 : ℤ) * M * 10 ^ 6 : ℤ) : ℚ) := by
      push_cast [TEN, HOUR_PRICE, USDC_DECIMALS]
      ring
    rw [h, Int.floor_intCast]
  have h2 : usdcAmountRaw (2 : ℚ) = 100000000 := by
    have h := key 2
    push_cast at h
    exact h
  refine ⟨key N, ?_, h2⟩
  rw [createPayInstruction, key N]
  rfl

/-- Claim C5, counterexample.  There is no attempt bound B after which the
fetchTransaction recursion is guaranteed to have terminated: for the
response oracle that never returns the transaction, the recursion is still
running after B attempts for every B (and its only outcomes are a fetched
transaction or further recursion — it has no error path at all, so it never
raises TransactionNotFound). -/
theorem C5_counterexample :
    ¬ ∃ B : ℕ, ∀ oracle : ℕ → Option FetchedTx,
        (fetchTransactionFuel oracle 0 B).isSome = true := by
  rintro ⟨B, h⟩
  have hnone : ∀ (fuel i : ℕ), fetchTransactionFuel (fun _ => none) i fuel = none := by
    intro fuel
    induction fuel with
    | zero => intro i; rfl
    | succ n ih => intro i; simp [fetchTransactionFuel, ih]
  have := h (fun _ => none)
  rw [hnone B 0] at this
  simp at this

/-- Claim C5, amended.  The fetch loop retries indefinitely with no attempt
cap and no TransactionNotFound error: within any fuel budget it has
terminated exactly when some earlier attempt returned a non-null response
(returning the first such response), and with no response it loops forever. -/
theorem C5_amended_theorem (oracle : ℕ → Option FetchedTx) (i fuel : ℕ) :
    (fetchTransactionFuel oracle i fuel).isSome = true
      ↔ ∃ k, k < fuel ∧ (oracle (i + k)).isSome = true := by
  induction fuel generalizing i with
  | zero => simp [fetchTransactionFuel]
  | succ n ih =>
    cases horacle : oracle i with
    | some r =>
      simp only [fetchTransactionFuel, horacle]
      constructor
      · intro _
        exact ⟨0, Nat.succ_pos n, by simp [horacle]⟩
      · intro _
        simp
    | none =>
      simp only [fetchTransactionFuel, horacle]
      rw [ih]
      constructor
      · rintro ⟨k, hk, hor⟩
        exact ⟨k + 1, by omega, by simpa [Nat.add_assoc, Nat.add_comm 1 k] using hor⟩
      · rintro ⟨k, hk, hor⟩
        cases k with
        | zero => rw [Nat.add_zero] at hor; rw [horacle] at hor; simp at hor
        | succ j =>
          refine ⟨j, by omega, ?_⟩
          have : i + 1 + j = i + (j + 1) := by omega
          rw [this]
          exact hor

/-- Claim C6.  createSystemInstruction returns a native transfer instruction
exactly when all four local preconditions hold (sender owned by the system
program, not executable, amount within 9 decimal places, floored lamport
amount within the sender's balance), in which case it is the system transfer
of the floored lamport amount; every other input yields one of the four
named errors. -/
theorem C6_theorem (recipient : Key) (amount : ℚ) (sender : Key)
    (senderInfo : AccountInfoNative) :
    ((∃ ix, createSystemInstruction recipient amount sender senderInfo = .ok ix)
      ↔ (senderInfo.owner = systemProgramId ∧ senderInfo.executable = false
          ∧ (amount * (10 : ℚ) ^ 9).den = 1
          ∧ ⌊amount * (LAMPORTS_PER_SOL : ℚ)⌋ ≤ (senderInfo.lamports : ℤ)))
    ∧ (createSystemInstruction recipient amount sender senderInfo =
          .ok ⟨systemProgramId, [sender, recipient],
               .systemTransfer ⌊amount * (LAMPORTS_PER_SOL : ℚ)⌋⟩
        ∨ createSystemInstruction recipient amount sender senderInfo = .error "sender owner invalid"
        ∨ createSystemInstruction recipient amount sender senderInfo = .error "sender executable"
        ∨ createSystemInstruction recipient amount sender senderInfo = .error "amount decimals invalid"
        ∨ createSystemInstruction recipient amount sender senderInfo = .error "insufficient funds") := by
  unfold createSystemInstruction
  split_ifs with h1 h2 h3 h4
  · refine ⟨⟨?_, ?_⟩, Or.inr (Or.inl rfl)⟩
    · rintro ⟨ix, hix⟩
      simp at hix
    · rintro ⟨ho, -, -, -⟩
      exact absurd ho h1
  · refine ⟨⟨?_, ?_⟩, Or.inr (Or.inr (Or.inl rfl))⟩
    · rintro ⟨ix, hix⟩
      simp at hix
    · rintro ⟨-, he, -, -⟩
      simp [he] at h2
  · refine ⟨⟨?_, ?_⟩, Or.inr (Or.inr (Or.inr (Or.inl rfl)))⟩
    · rintro ⟨ix, hix⟩
      simp at hix
    · rintro ⟨-, -, hd, -⟩
      exact absurd hd h3
  · refine ⟨⟨?_, ?_⟩, Or.inr (Or.inr (Or.inr (Or.inr rfl)))⟩
    · rintro ⟨ix, hix⟩
      simp at hix
    · rintro ⟨-, -, -, hle⟩
      exact absurd hle (not_le.mpr h4)
  · refine ⟨⟨?_, ?_⟩, Or.inl rfl⟩
    · rintro -
      exact ⟨not_not.mp h1, by simpa using h2, not_not.mp h3, not_lt.mp h4⟩
    · rintro -
      exact ⟨_, rfl⟩

/-- Claim C7.  Every timed-out iteration of the confirmation loop
rebroadcasts exactly the original serialized bytes (the rebroadcast log is
always a replicate of the initial broadcast's bytes), and with a
confirmation source reporting unconfirmed twice then confirmed the run
rebroadcasts exactly twice and returns the original signature unmodified. -/
theorem C7_theorem :
    (∀ (bytes : Bytes) (oracle : ℕ → ConfirmEvent) (i fuel : ℕ),
        confirmLoop bytes oracle i fuel =
          (confirmSchedule oracle i fuel).map (fun r => r.map (fun n => List.replicate n bytes)))
    ∧ sendTransactionTryFuel envC7 "d" 5 =
        some (.ok { signature := "SIG0", rebroadcasts := [[7, 7], [7, 7]],
                    record := { signature := "SIG0", signer := "OWNER",
                                currency := USDC_MINT, amount := 100000000 },
                    meetData := "d" }) := by
  constructor
  · intro bytes oracle i fuel
    induction fuel generalizing i with
    | zero => rfl
    | succ n ih =>
      cases h : oracle i with
      | confirmed => simp [confirmLoop, confirmSchedule, h, Except.map]
      | failed m => simp [confirmLoop, confirmSchedule, h, Except.map]
      | timeout =>
        simp only [confirmLoop, confirmSchedule, h, ih]
        cases hs : confirmSchedule oracle (i + 1) n with
        | none => rfl
        | some r =>
          cases r with
          | error m => rfl
          | ok k => simp [List.replicate_succ, Except.map]
  · simp [sendTransactionTryFuel, envC7, ftxA, confirmLoop, mockConfirmOracle,
          fetchTransactionFuel, validSellerATA_mint, Except.map,
          verifyTransfer_valid_ok 100000000 den_100000000]

/-- Claim C8.  After a first getMintData lookup that returns successfully,
a second lookup of the same mint performs zero chain RPC calls, leaves the
cache unchanged, and returns exactly the fields the first lookup returned
(the hypothesis that the raw isInitialized byte is 0 or 1 holds for every
mint account the token program writes). -/
theorem C8_theorem (chain : Key → Option RawMint) (cache : MintCache) (mintKey : Key)
    (hinit : ∀ raw, chain mintKey = some raw → raw.isInitialized ≤ 1)
    (v1 : MintView) (cache1 : MintCache) (n1 : ℕ)
    (h1 : getMintData chain cache mintKey = (.ok v1, cache1, n1)) :
    getMintData chain cache1 mintKey = (.ok v1, cache1, 0) := by
  unfold getMintData at h1 ⊢
  cases hc : cache.lookup mintKey with
  | some doc =>
    rw [hc] at h1
    simp only [Prod.mk.injEq, Except.ok.injEq] at h1
    obtain ⟨hv, hcache, hn⟩ := h1
    subst hv
    subst hcache
    rw [hc]
  | none =>
    rw [hc] at h1
    cases hchain : chain mintKey with
    | none =>
      rw [hchain] at h1
      simp at h1
    | some raw =>
      rw [hchain] at h1
      simp only [Prod.mk.injEq, Except.ok.injEq] at h1
      obtain ⟨hv, hcache, hn⟩ := h1
      subst hv
      subst hcache
      have hl : ((mintKey, storeDoc mintKey raw) :: cache).lookup mintKey =
          some (storeDoc mintKey raw) := by
        simp [List.lookup]
      rw [hl]
      have hi : raw.isInitialized = 0 ∨ raw.isInitialized = 1 := by
        have := hinit raw hchain
        omega
      have hview : cacheView (storeDoc mintKey raw) = rawView raw := by
        rcases hi with h0 | h1
        · simp [cacheView, storeDoc, rawView, h0]
        · simp [cacheView, storeDoc, rawView, h1]
      simp [hview]

/-- Claim C8, witness: a concrete second lookup of mint M1 after a first
miss-and-fill lookup performs zero RPC calls and returns the first result. -/
theorem C8_witness :
    getMintData chainW [("M1", storeDoc "M1" rawM)] "M1" =
      (.ok (rawView rawM), [("M1", storeDoc "M1" rawM)], 0) :=
  C8_theorem chainW [] "M1"
    (fun raw h => by
      rw [show chainW "M1" = some rawM from rfl] at h
      injection h with h
      rw [← h]
      decide)
    (rawView rawM) [("M1", storeDoc "M1" rawM)] 1 (by decide)

/-- Claim C9.  A finalized transaction whose last instruction transfers raw
amount 0 passes the divisibility check (0 / 50000000 is the integer 0), so
with valid reference, destination owner and mint the whole verification
succeeds: the payment record (amount 0) is persisted and fulfillment
(generateMeet) is triggered with the client's data. -/
theorem C9_theorem :
    sendTransactionTryFuel envZ "meeting-data" 2 =
      some (.ok { signature := "SIG0", rebroadcasts := [],
                  record := { signature := "SIG0", signer := "OWNER",
                              currency := USDC_MINT, amount := 0 },
                  meetData := "meeting-data" }) := by
  simp [sendTransactionTryFuel, envZ, ftxZ, confirmLoop, fetchTransactionFuel,
        validSellerATA_mint, verifyTransfer_valid_ok 0 den_zero]

/-- Claim C10.  Whenever sendTransaction returns at all, its return value is
a plain string that is either the success signature or the message of the
error the try block raised — the catch-all converts every failure
(malformed bytes, broadcast or confirmation failure, every verification
failure) into the error's message, of the same type as a success
signature. -/
theorem C10_theorem (env : Env) (data : String) (fuel : ℕ) (out : String)
    (h : sendTransactionFuel env data fuel = some out) :
    (∃ o : SuccessOutcome,
        sendTransactionTryFuel env data fuel = some (.ok o) ∧ out = o.signature)
    ∨ sendTransactionTryFuel env data fuel = some (.error out) := by
  unfold sendTransactionFuel at h
  cases htry : sendTransactionTryFuel env data fuel with
  | none =>
    rw [htry] at h
    simp at h
  | some r =>
    rw [htry] at h
    cases r with
    | ok o =>
      simp only [Option.some.injEq] at h
      exact Or.inl ⟨o, rfl, h.symm⟩
    | error m =>
      simp only [Option.some.injEq] at h
      subst h
      exact Or.inr rfl

/-- Claim C10, witness: a run with malformed transaction bytes returns the
deserialization error's message as its result string. -/
theorem C10_witness :
    (∃ o : SuccessOutcome,
        sendTransactionTryFuel envBad "x" 1 = some (.ok o) ∧ "bad bytes" = o.signature)
    ∨ sendTransactionTryFuel envBad "x" 1 = some (.error "bad bytes") :=
  C10_theorem envBad "x" 1 "bad bytes" rfl
